import Mathlib

/-!
The gogetstocktwits repository: bucketing and insert-if-new.

A shallow embedding of `src/gogetstocktwits.go` (the fetch, the temperature
buckets of `StocktwitsCallAPI`) and of `src/test.go` (the insert-if-new loop of
`main` and `checkForExistingMessage`), followed by the properties proved of
them.

Conventions of the embedding:
* a Go `string` is a Lean `String`; the bodies compared come out of a JSON or
  BSON decoder, hence are valid UTF-8, on which Go's byte-wise `==` and
  equality of the character sequences agree;
* a `float64` field is carried as its IEEE-754 bit pattern; none of the
  modelled code inspects one;
* a `time.Time` is its wall-clock instant in nanoseconds (decoded times carry
  no monotonic reading, so `Sub` works on the wall clock);
* a `time.Duration` is an `Int` number of nanoseconds within the `int64` range;
* the three Go `int` counters are `Int`: each is incremented at most once per
  element of a slice, whose length is below `2^63`, so no wrap-around occurs.
-/

set_option linter.dupNamespace false

namespace Gogetstocktwits

/-! ## Data model (`src/gogetstocktwits.go`, lines 25-97) -/

/-- A Go `float64`, kept as its bit pattern. -/
structure float64 where
  bits : Nat
  deriving DecidableEq, Repr

/-- A Go `time.Time`: nanoseconds on the wall clock since the epoch. -/
structure Time where
  ns : Int
  deriving DecidableEq, Repr

/-- A Go `time.Duration`: a count of nanoseconds. -/
abbrev Duration := Int

structure StocktwitUser where
  ID : float64
  Username : String
  Name : String
  AvatarURL : String
  AvatarURLSsl : String
  Identity : String
  Classification : List String
  deriving DecidableEq, Repr

structure StocktwitSource where
  ID : float64
  Title : String
  URL : String
  deriving DecidableEq, Repr

structure Symbol where
  ID : float64
  Symbol : String
  Title : String
  Aliases : List String
  IsFollowing : Bool
  WatchlistCount : float64
  deriving DecidableEq, Repr

structure Response where
  Status : Int
  deriving DecidableEq, Repr

structure StocktwitMessage where
  ID : float64
  Body : String
  CreatedAt : Time
  User : StocktwitUser
  Source : StocktwitSource
  Symbols : List Symbol
  deriving DecidableEq, Repr

structure Cursor where
  More : Bool
  Since : float64
  Max : float64
  deriving DecidableEq, Repr

structure StocktwitResponse where
  Response : Response
  Symbol : Symbol
  Cursor : Cursor
  Messages : List StocktwitMessage
  deriving DecidableEq, Repr

structure Temperature where
  last10Minutes : Int
  last1Hour : Int
  last3Hours : Int
  deriving DecidableEq, Repr

structure StocktwitProfile where
  Response : Response
  Symbol : Symbol
  Cursor : Cursor
  Temperature : Temperature
  deriving DecidableEq, Repr

/-- The stored form of a message (collection `stocktwitmessages`). -/
structure StocktwitMessages where
  Symbol : String
  Body : String
  CreatedAt : Time
  User : StocktwitUser
  Source : StocktwitSource
  Symbols : List Gogetstocktwits.Symbol
  deriving DecidableEq, Repr

/-! ## Time arithmetic (package `time`, as used on lines 113-122) -/

def minDuration : Duration := -(2 ^ 63)

def maxDuration : Duration := 2 ^ 63 - 1

/-- `time.Nanosecond * 1e9`. -/
def Second : Duration := 1000000000

/-- `60 * time.Second`. -/
def Minute : Duration := 60 * Second

/-- `60 * time.Minute`. -/
def Hour : Duration := 60 * Minute

/-- `t.Sub(u)`: the difference `t - u`, replaced by the least or the greatest
`Duration` when it does not fit. -/
def Time.Sub (t u : Time) : Duration :=
  if t.ns - u.ns < minDuration then minDuration
  else if maxDuration < t.ns - u.ns then maxDuration
  else t.ns - u.ns

/-- `int(d.Minutes())`. `Minutes` is `float64(d / Minute) + float64(d % Minute) / 6e10`
and `int(_)` drops the fraction; both integers are exact as `float64`. The
result is the truncated quotient `d / Minute`, except that for a quotient of
magnitude `2^17` and more the sum may round to the next integer; that is far
from the one value, 10, it is compared with. -/
def Duration.minutesInt (d : Duration) : Int :=
  Int.tdiv d Minute

/-- `int(d.Hours())`, as `Duration.minutesInt` with `Hour`; near the values 1
and 3 it is compared with, the `float64` sum never reaches the next integer. -/
def Duration.hoursInt (d : Duration) : Int :=
  Int.tdiv d Hour

/-! ## The bucketing loop of `StocktwitsCallAPI` (lines 113-137) -/

/-- The body of the loop on lines 118-130, on the three counters. -/
def bucketStep (currentTime : Time) (t : Temperature) (message : StocktwitMessage) :
    Temperature :=
  let messageTime := message.CreatedAt
  let elapsed := currentTime.Sub messageTime
  let minutes := Duration.minutesInt elapsed
  let hours := Duration.hoursInt elapsed
  if minutes ≤ 10 then
    { t with last10Minutes := t.last10Minutes + 1 }
  else if hours ≤ 1 then
    { t with last1Hour := t.last1Hour + 1 }
  else if hours ≤ 3 then
    { t with last3Hours := t.last3Hours + 1 }
  else t

/-- Lines 113-137: the counters start at 0, the loop runs over the messages in
order, and the result is packed into a `Temperature`. -/
def buildTemperature (currentTime : Time) (messages : List StocktwitMessage) :
    Temperature :=
  messages.foldl (bucketStep currentTime) ⟨0, 0, 0⟩

/-! ## The fetch (`returnURL`, `stocktwitsAPICall`, lines 151-187) -/

/-- A Go `[]byte`. -/
abbrev Bytes := List Nat

/-- What the network does with one request, as seen by `returnURL`: the three
library calls `http.NewRequest`, `client.Do` and `ioutil.ReadAll`. -/
inductive HTTPOutcome where
  /-- `http.NewRequest` returns a nil request and an error. -/
  | requestFailed (err : String)
  /-- `client.Do` returns a nil response and an error (a timeout, for one). -/
  | doFailed (getErr : String)
  /-- `ioutil.ReadAll` returns the bytes read and possibly an error. -/
  | read (body : Bytes) (readErr : Option String)
  deriving DecidableEq, Repr

/-- One observable action of the fetch: a line on standard output or a call of
`writeFile`, which is recorded with its two arguments. -/
inductive Event where
  | println (line : String)
  | writeFile (path : String) (line : String)
  deriving DecidableEq, Repr

/-- `returnURL` (lines 169-187). `none` is a run-time fault: after a failed
`NewRequest` the nil `req` is dereferenced on line 179, and after a failed
`client.Do` line 183 calls `Error` on the nil `err` of line 174. Otherwise the
result of `ioutil.ReadAll` is returned as it is. -/
def returnURL (http : String → HTTPOutcome) (url : String) : Option (Bytes × Option String) :=
  match http url with
  | .requestFailed _ => none
  | .doFailed _ => none
  | .read body readErr => some (body, readErr)

/-- What an `if readErr != nil` or `if jsonErr != nil` block does (lines 155-158
and 161-164): on an error, print it and write it to the log behind the given
heading; on none, nothing. -/
def reportError (logPath heading : String) : Option String → List Event
  | some e => [Event.println e, Event.writeFile logPath (heading ++ e)]
  | none => []

/-- `stocktwitsAPICall` (lines 153-167). `unmarshal` is `json.Unmarshal`: from
the bytes and the response as it stands, the response as it is left and the
error, if any. `logPath` is the package constant of that name. Returns the
response and the actions in order. -/
def stocktwitsAPICall (logPath : String)
    (unmarshal : Bytes → StocktwitResponse → StocktwitResponse × Option String)
    (http : String → HTTPOutcome) (url : String) (response : StocktwitResponse) :
    Option (StocktwitResponse × List Event) :=
  match returnURL http url with
  | none => none
  | some (body, readErr) =>
    let onRead := reportError logPath "ERROR: Stocktwits Api error - " readErr
    let decoded := unmarshal body response
    let onJson := reportError logPath "ERROR: Json Unmarshal error - " decoded.2
    some (decoded.1, onRead ++ onJson)

/-- The value of `StocktwitResponse{}` (line 107). -/
def emptyResponse : StocktwitResponse :=
  { Response := ⟨0⟩
    Symbol := ⟨⟨0⟩, "", "", [], false, ⟨0⟩⟩
    Cursor := ⟨false, ⟨0⟩, ⟨0⟩⟩
    Messages := [] }

/-- The URL of line 105. -/
def stocktwitURL (symbol : String) : String :=
  "https://api.stocktwits.com/api/2/streams/symbol/" ++ symbol ++ ".json"

/-- `StocktwitsCallAPI` (lines 102-149); `currentTime` is the value `time.Now()`
returns on line 113. The result is the pair returned on line 148 with the
actions of the fetch, or `none` when the fetch faulted. -/
def StocktwitsCallAPI (logPath : String)
    (unmarshal : Bytes → StocktwitResponse → StocktwitResponse × Option String)
    (http : String → HTTPOutcome) (currentTime : Time) (symbol : String) :
    Option ((List StocktwitMessage × StocktwitProfile) × List Event) :=
  match stocktwitsAPICall logPath unmarshal http (stocktwitURL symbol) emptyResponse with
  | none => none
  | some (response, events) =>
    let stocktwitsTemperature := buildTemperature currentTime response.Messages
    let stocktwitsProfile : StocktwitProfile :=
      { Response := response.Response
        Symbol := response.Symbol
        Cursor := response.Cursor
        Temperature := stocktwitsTemperature }
    some ((response.Messages, stocktwitsProfile), events)

/-! ## Insert-if-new (`src/test.go`, lines 93-115 and 157-178) -/

/-- `checkForExistingMessage` (lines 157-178): the linear search, leaving with
`true` at the first stored message of the same body. -/
def checkForExistingMessage (body : String) : List StocktwitMessages → Bool
  | [] => false
  | hl :: rest => if hl.Body = body then true else checkForExistingMessage body rest

/-- The document given to `InsertOne` on lines 99-106; its keys are the `bson`
names of `StocktwitMessages`. -/
def insertDocument (symbol : String) (message : StocktwitMessage) : StocktwitMessages :=
  { Symbol := symbol
    Body := message.Body
    CreatedAt := message.CreatedAt
    User := message.User
    Source := message.Source
    Symbols := message.Symbols }

/-- The body of the loop on lines 94-115, on the sequence of documents handed
to `InsertOne` so far. A failing `InsertOne` is printed and logged only, and
`currentMessages` is not written to. -/
def insertStep (symbol : String) (currentMessages : List StocktwitMessages)
    (inserted : List StocktwitMessages) (message : StocktwitMessage) :
    List StocktwitMessages :=
  if checkForExistingMessage message.Body currentMessages then inserted
  else inserted ++ [insertDocument symbol message]

/-- The loop on lines 94-115 over a batch: the documents handed to `InsertOne`,
in the order of the calls. -/
def insertLoop (symbol : String) (messages : List StocktwitMessage)
    (currentMessages : List StocktwitMessages) : List StocktwitMessages :=
  messages.foldl (insertStep symbol currentMessages) []

/-! ## Sample values -/

/-- A feed message of the given body and posting time, all else zero. -/
def sampleMessage (body : String) (createdAt : Time) : StocktwitMessage :=
  { ID := ⟨0⟩
    Body := body
    CreatedAt := createdAt
    User := ⟨⟨0⟩, "", "", "", "", "", []⟩
    Source := ⟨⟨0⟩, "", ""⟩
    Symbols := [] }

/-- The network on which the read ends early, on every URL. -/
def httpUnexpectedEOF : String → HTTPOutcome :=
  fun _ => HTTPOutcome.read [] (some "unexpected EOF")

/-- A decoder that fails and leaves the response as it was. -/
def unmarshalFails : Bytes → StocktwitResponse → StocktwitResponse × Option String :=
  fun _ response => (response, some "unexpected end of JSON input")

/-! ## Auxiliary lemmas -/

/-- The truncated quotient by a positive divisor, through the floor quotient. -/
theorem tdiv_by_pos (d m : Int) (hm : 0 < m) :
    Int.tdiv d m = if 0 ≤ d then d / m else -((-d) / m) := by
  split
  · next hd => exact Int.tdiv_eq_ediv hd (le_of_lt hm)
  · next hd =>
    have h1 : Int.tdiv (-d) m = (-d) / m := Int.tdiv_eq_ediv (by omega) (le_of_lt hm)
    rw [← h1, Int.neg_tdiv, neg_neg]

theorem minutesInt_eq (d : Int) :
    Duration.minutesInt d
      = if 0 ≤ d then d / 60000000000 else -((-d) / 60000000000) := by
  have h := tdiv_by_pos d 60000000000 (by norm_num)
  simpa [Duration.minutesInt, Minute, Second] using h

theorem hoursInt_eq (d : Int) :
    Duration.hoursInt d
      = if 0 ≤ d then d / 3600000000000 else -((-d) / 3600000000000) := by
  have h := tdiv_by_pos d 3600000000000 (by norm_num)
  simpa [Duration.hoursInt, Hour, Minute, Second] using h

/-- The test of line 123 on the duration itself: below eleven minutes. -/
theorem minutesInt_le_ten (d : Int) :
    Duration.minutesInt d ≤ 10 ↔ d < 11 * Minute := by
  have hk : (11 : Int) * Minute = 660000000000 := by norm_num [Minute, Second]
  rw [minutesInt_eq, hk]
  split <;> omega

/-- The test of line 125 on the duration itself: below two hours. -/
theorem hoursInt_le_one (d : Int) :
    Duration.hoursInt d ≤ 1 ↔ d < 2 * Hour := by
  have hk : (2 : Int) * Hour = 7200000000000 := by norm_num [Hour, Minute, Second]
  rw [hoursInt_eq, hk]
  split <;> omega

/-- The test of line 127 on the duration itself: below four hours. -/
theorem hoursInt_le_three (d : Int) :
    Duration.hoursInt d ≤ 3 ↔ d < 4 * Hour := by
  have hk : (4 : Int) * Hour = 14400000000000 := by norm_num [Hour, Minute, Second]
  rw [hoursInt_eq, hk]
  split <;> omega

/-- The branch the loop body takes, by the elapsed time. -/
theorem bucketStep_eq (currentTime : Time) (t : Temperature) (message : StocktwitMessage) :
    bucketStep currentTime t message =
      if currentTime.Sub message.CreatedAt < 11 * Minute then
        { t with last10Minutes := t.last10Minutes + 1 }
      else if currentTime.Sub message.CreatedAt < 2 * Hour then
        { t with last1Hour := t.last1Hour + 1 }
      else if currentTime.Sub message.CreatedAt < 4 * Hour then
        { t with last3Hours := t.last3Hours + 1 }
      else t := by
  simp only [bucketStep, minutesInt_le_ten, hoursInt_le_one, hoursInt_le_three]

/-- A loop body changes the counters in one of four ways. -/
theorem bucketStep_cases (currentTime : Time) (t : Temperature) (message : StocktwitMessage) :
    bucketStep currentTime t message = t
      ∨ bucketStep currentTime t message = { t with last10Minutes := t.last10Minutes + 1 }
      ∨ bucketStep currentTime t message = { t with last1Hour := t.last1Hour + 1 }
      ∨ bucketStep currentTime t message = { t with last3Hours := t.last3Hours + 1 } := by
  rw [bucketStep_eq]
  split
  · exact Or.inr (Or.inl rfl)
  · split
    · exact Or.inr (Or.inr (Or.inl rfl))
    · split
      · exact Or.inr (Or.inr (Or.inr rfl))
      · exact Or.inl rfl

/-- The loop from any counters: none decreases, and their sum grows by at most
the number of messages. -/
theorem foldl_bucketStep_bounds (currentTime : Time) (messages : List StocktwitMessage) :
    ∀ t : Temperature,
      t.last10Minutes ≤ (messages.foldl (bucketStep currentTime) t).last10Minutes
      ∧ t.last1Hour ≤ (messages.foldl (bucketStep currentTime) t).last1Hour
      ∧ t.last3Hours ≤ (messages.foldl (bucketStep currentTime) t).last3Hours
      ∧ (messages.foldl (bucketStep currentTime) t).last10Minutes
          + (messages.foldl (bucketStep currentTime) t).last1Hour
          + (messages.foldl (bucketStep currentTime) t).last3Hours
        ≤ t.last10Minutes + t.last1Hour + t.last3Hours + messages.length := by
  induction messages with
  | nil => intro t; simp
  | cons m rest ih =>
    intro t
    simp only [List.foldl_cons, List.length_cons, Nat.cast_add, Nat.cast_one]
    have h := ih (bucketStep currentTime t m)
    revert h
    rcases bucketStep_cases currentTime t m with e | e | e | e <;> rw [e] <;>
      intro h <;> (try dsimp only at h) <;> refine ⟨?_, ?_, ?_, ?_⟩ <;> omega

/-- A message posted after the sampled time has a negative elapsed time, also
where the difference is cut to the least `Duration`. -/
theorem Sub_neg_of_lt (t u : Time) (h : t.ns < u.ns) : t.Sub u < 0 := by
  have hmin : minDuration = -9223372036854775808 := by norm_num [minDuration]
  have hmax : maxDuration = 9223372036854775807 := by norm_num [maxDuration]
  unfold Time.Sub
  rw [hmin, hmax]
  unfold Duration
  split
  · omega
  · split <;> omega

/-- The search finds a message exactly when one of that body is stored. -/
theorem checkForExistingMessage_iff (body : String) (current : List StocktwitMessages) :
    checkForExistingMessage body current = true ↔ ∃ c ∈ current, c.Body = body := by
  induction current with
  | nil => simp [checkForExistingMessage]
  | cons hl rest ih =>
    by_cases hb : hl.Body = body
    · simp [checkForExistingMessage, hb]
    · simp [checkForExistingMessage, hb, ih]

/-- The search fails exactly when every stored body differs. -/
theorem checkForExistingMessage_eq_false_iff (body : String) (current : List StocktwitMessages) :
    checkForExistingMessage body current = false ↔ ∀ c ∈ current, c.Body ≠ body := by
  rw [← Bool.not_eq_true, checkForExistingMessage_iff]
  simp

/-- The search reads the stored bodies only. -/
theorem checkForExistingMessage_bodies (body : String) (current : List StocktwitMessages) :
    checkForExistingMessage body current = decide (body ∈ current.map (fun c => c.Body)) := by
  rw [Bool.eq_iff_iff, checkForExistingMessage_iff]
  simp [eq_comm]

/-- The insert loop from any sequence of earlier calls. -/
theorem foldl_insertStep (symbol : String) (current : List StocktwitMessages)
    (messages : List StocktwitMessage) :
    ∀ inserted : List StocktwitMessages,
      messages.foldl (insertStep symbol current) inserted
        = inserted ++ (messages.filter
            (fun m => !checkForExistingMessage m.Body current)).map (insertDocument symbol) := by
  induction messages with
  | nil => intro inserted; simp
  | cons m rest ih =>
    intro inserted
    rw [List.foldl_cons, ih]
    by_cases hc : checkForExistingMessage m.Body current = true
    · simp [insertStep, hc]
    · simp [insertStep, hc]

/-- The insert loop as a filter of the batch. -/
theorem insertLoop_eq (symbol : String) (messages : List StocktwitMessage)
    (current : List StocktwitMessages) :
    insertLoop symbol messages current
      = (messages.filter
          (fun m => !checkForExistingMessage m.Body current)).map (insertDocument symbol) := by
  simp [insertLoop, foldl_insertStep]

/-! ## The bucketing loop: properties -/

/-- C3: a message whose elapsed time is at most ten minutes adds exactly 1 to
`last10Minutes` and leaves `last1Hour` and `last3Hours` as they were. -/
theorem bucketStep_within_ten_minutes (currentTime : Time) (t : Temperature)
    (message : StocktwitMessage)
    (h : currentTime.Sub message.CreatedAt ≤ 10 * Minute) :
    (bucketStep currentTime t message).last10Minutes = t.last10Minutes + 1
      ∧ (bucketStep currentTime t message).last1Hour = t.last1Hour
      ∧ (bucketStep currentTime t message).last3Hours = t.last3Hours := by
  have hlt : currentTime.Sub message.CreatedAt < 11 * Minute := by
    have h10 : (10 : Int) * Minute = 600000000000 := by norm_num [Minute, Second]
    have h11 : (11 : Int) * Minute = 660000000000 := by norm_num [Minute, Second]
    rw [h10] at h
    rw [h11]
    unfold Duration at h ⊢
    omega
  rw [bucketStep_eq, if_pos hlt]
  exact ⟨rfl, rfl, rfl⟩

/-- Instance of C3: a message five minutes old, from counters 0, 0, 0. -/
theorem bucketStep_within_ten_minutes_witness :
    Time.Sub ⟨300000000000⟩ (sampleMessage "AAPL up" ⟨0⟩).CreatedAt ≤ 10 * Minute
      ∧ (bucketStep ⟨300000000000⟩ ⟨0, 0, 0⟩ (sampleMessage "AAPL up" ⟨0⟩)).last10Minutes = 0 + 1
      ∧ (bucketStep ⟨300000000000⟩ ⟨0, 0, 0⟩ (sampleMessage "AAPL up" ⟨0⟩)).last1Hour = 0
      ∧ (bucketStep ⟨300000000000⟩ ⟨0, 0, 0⟩ (sampleMessage "AAPL up" ⟨0⟩)).last3Hours = 0 :=
  ⟨by decide,
    bucketStep_within_ten_minutes ⟨300000000000⟩ ⟨0, 0, 0⟩ (sampleMessage "AAPL up" ⟨0⟩)
      (by decide)⟩

/-- C4, at a failing input: a message 10 minutes 30 seconds old, which is
more than ten minutes and at most one hour, is counted in `last10Minutes` and
not in `last1Hour`. -/
theorem bucketStep_ten_and_a_half_minutes :
    10 * Minute < Time.Sub ⟨630000000000⟩ (sampleMessage "AAPL up" ⟨0⟩).CreatedAt
      ∧ Time.Sub ⟨630000000000⟩ (sampleMessage "AAPL up" ⟨0⟩).CreatedAt ≤ Hour
      ∧ bucketStep ⟨630000000000⟩ ⟨0, 0, 0⟩ (sampleMessage "AAPL up" ⟨0⟩) = ⟨1, 0, 0⟩ := by
  refine ⟨by decide, by decide, by decide⟩

/-- C5, at a failing input: a message 90 minutes old, which is more than one
hour and at most three hours, is counted in `last1Hour` and not in
`last3Hours`. -/
theorem bucketStep_ninety_minutes :
    Hour < Time.Sub ⟨5400000000000⟩ (sampleMessage "AAPL up" ⟨0⟩).CreatedAt
      ∧ Time.Sub ⟨5400000000000⟩ (sampleMessage "AAPL up" ⟨0⟩).CreatedAt ≤ 3 * Hour
      ∧ bucketStep ⟨5400000000000⟩ ⟨0, 0, 0⟩ (sampleMessage "AAPL up" ⟨0⟩) = ⟨0, 1, 0⟩ := by
  refine ⟨by decide, by decide, by decide⟩

/-- C6, at a failing input: a message 3 hours 30 minutes old, which is more
than three hours, is counted in `last3Hours`. -/
theorem bucketStep_three_and_a_half_hours :
    3 * Hour < Time.Sub ⟨12600000000000⟩ (sampleMessage "AAPL up" ⟨0⟩).CreatedAt
      ∧ bucketStep ⟨12600000000000⟩ ⟨0, 0, 0⟩ (sampleMessage "AAPL up" ⟨0⟩) = ⟨0, 0, 1⟩ := by
  refine ⟨by decide, by decide⟩

/-- C7: for every batch and time, the three counts of the `Temperature` add up
to at most the length of the batch, none is negative, and one message changes
the counters in one of four ways: not at all, or by adding 1 to exactly one of
them. -/
theorem buildTemperature_bounds (currentTime : Time) (messages : List StocktwitMessage) :
    (buildTemperature currentTime messages).last10Minutes
        + (buildTemperature currentTime messages).last1Hour
        + (buildTemperature currentTime messages).last3Hours ≤ messages.length
      ∧ 0 ≤ (buildTemperature currentTime messages).last10Minutes
      ∧ 0 ≤ (buildTemperature currentTime messages).last1Hour
      ∧ 0 ≤ (buildTemperature currentTime messages).last3Hours
      ∧ ∀ (t : Temperature) (message : StocktwitMessage),
          bucketStep currentTime t message = t
            ∨ bucketStep currentTime t message
                = ⟨t.last10Minutes + 1, t.last1Hour, t.last3Hours⟩
            ∨ bucketStep currentTime t message
                = ⟨t.last10Minutes, t.last1Hour + 1, t.last3Hours⟩
            ∨ bucketStep currentTime t message
                = ⟨t.last10Minutes, t.last1Hour, t.last3Hours + 1⟩ := by
  have h := foldl_bucketStep_bounds currentTime messages ⟨0, 0, 0⟩
  simp only [buildTemperature]
  dsimp only at h
  refine ⟨by omega, h.1, h.2.1, h.2.2.1, ?_⟩
  intro t message
  exact bucketStep_cases currentTime t message

/-- C10: a message posted after the sampled time, by any amount, adds exactly
1 to `last10Minutes` and leaves the other two counters as they were. -/
theorem bucketStep_future_message (currentTime : Time) (t : Temperature)
    (message : StocktwitMessage) (h : currentTime.ns < message.CreatedAt.ns) :
    Duration.minutesInt (currentTime.Sub message.CreatedAt) ≤ 10
      ∧ bucketStep currentTime t message
          = ⟨t.last10Minutes + 1, t.last1Hour, t.last3Hours⟩ := by
  have hneg := Sub_neg_of_lt currentTime message.CreatedAt h
  have hlt : currentTime.Sub message.CreatedAt < 11 * Minute := by
    have h11 : (11 : Int) * Minute = 660000000000 := by norm_num [Minute, Second]
    rw [h11]
    unfold Duration at hneg ⊢
    omega
  refine ⟨(minutesInt_le_ten _).mpr hlt, ?_⟩
  rw [bucketStep_eq, if_pos hlt]

/-- Instance of C10: a message posted one day after the sampled time. -/
theorem bucketStep_future_message_witness :
    (0 : Int) < (sampleMessage "AAPL up" ⟨86400000000000⟩).CreatedAt.ns
      ∧ bucketStep ⟨0⟩ ⟨0, 0, 0⟩ (sampleMessage "AAPL up" ⟨86400000000000⟩) = ⟨0 + 1, 0, 0⟩ :=
  ⟨by decide,
    (bucketStep_future_message ⟨0⟩ ⟨0, 0, 0⟩ (sampleMessage "AAPL up" ⟨86400000000000⟩)
      (by decide)).2⟩

/-! ## Insert-if-new: properties -/

/-- C1: the documents the insert loop hands to `InsertOne` are those of the
batch messages whose body is the body of no stored message, in batch order;
the test reads the stored list only, so a body that is not stored is inserted
as many times as it occurs in the batch, twice for a message that comes twice. -/
theorem insertLoop_selects_unstored (symbol : String) (messages : List StocktwitMessage)
    (currentMessages : List StocktwitMessages) :
    insertLoop symbol messages currentMessages
        = (messages.filter
            (fun m => decide (∀ c ∈ currentMessages, c.Body ≠ m.Body))).map
              (insertDocument symbol)
      ∧ (∀ body : String, (∀ c ∈ currentMessages, c.Body ≠ body) →
          ((insertLoop symbol messages currentMessages).filter
              (fun d => decide (d.Body = body))).length
            = (messages.filter (fun m => decide (m.Body = body))).length)
      ∧ (∀ m : StocktwitMessage, (∀ c ∈ currentMessages, c.Body ≠ m.Body) →
          insertLoop symbol [m, m] currentMessages
            = [insertDocument symbol m, insertDocument symbol m]) := by
  have hp : ∀ m : StocktwitMessage,
      (!checkForExistingMessage m.Body currentMessages)
        = decide (∀ c ∈ currentMessages, c.Body ≠ m.Body) := by
    intro m
    rw [Bool.eq_iff_iff, Bool.not_eq_true', checkForExistingMessage_eq_false_iff]
    simp
  refine ⟨?_, ?_, ?_⟩
  · rw [insertLoop_eq]
    congr 1
    exact List.filter_congr (fun m _ => hp m)
  · intro body hbody
    rw [insertLoop_eq, List.filter_map, List.length_map, List.filter_filter]
    congr 1
    apply List.filter_congr
    intro m _
    by_cases hm : m.Body = body
    · subst hm
      have hf := (checkForExistingMessage_eq_false_iff m.Body currentMessages).mpr hbody
      simp [insertDocument, hf]
    · simp [insertDocument, hm]
  · intro m hm
    have hf := (checkForExistingMessage_eq_false_iff m.Body currentMessages).mpr hm
    simp [insertLoop_eq, hf]

/-- C2: the search answers `true` exactly when some stored message has the
very body asked for; it answers `false` when every stored body differs from
it; and two stored lists with the same bodies in the same order, whatever
their other fields, get the same answer. -/
theorem checkForExistingMessage_exact_body (body : String)
    (current : List StocktwitMessages) :
    (checkForExistingMessage body current = true ↔ ∃ c ∈ current, c.Body = body)
      ∧ ((∀ c ∈ current, c.Body ≠ body) → checkForExistingMessage body current = false)
      ∧ (∀ other : List StocktwitMessages,
          other.map (fun c => c.Body) = current.map (fun c => c.Body) →
            checkForExistingMessage body other = checkForExistingMessage body current) := by
  refine ⟨checkForExistingMessage_iff body current,
    (checkForExistingMessage_eq_false_iff body current).mpr, ?_⟩
  intro other h
  rw [checkForExistingMessage_bodies, checkForExistingMessage_bodies, h]

/-- C8: when the stored list is extended with all the documents a first run of
the insert loop handed to `InsertOne`, a second run on the same batch inserts
nothing. -/
theorem insertLoop_second_run_empty (symbol : String) (messages : List StocktwitMessage)
    (currentMessages : List StocktwitMessages) :
    insertLoop symbol messages
        (currentMessages ++ insertLoop symbol messages currentMessages) = [] := by
  rw [insertLoop_eq symbol messages (currentMessages ++ _), List.map_eq_nil_iff,
    List.filter_eq_nil_iff]
  intro m hm
  have hfound : checkForExistingMessage m.Body
      (currentMessages ++ insertLoop symbol messages currentMessages) = true := by
    rw [checkForExistingMessage_iff]
    by_cases hc : checkForExistingMessage m.Body currentMessages = true
    · obtain ⟨c, hcmem, hcb⟩ := (checkForExistingMessage_iff _ _).mp hc
      exact ⟨c, List.mem_append_left _ hcmem, hcb⟩
    · refine ⟨insertDocument symbol m, List.mem_append_right _ ?_, rfl⟩
      rw [insertLoop_eq]
      apply List.mem_map_of_mem
      rw [List.mem_filter]
      exact ⟨hm, by simpa using hc⟩
  simp [hfound]

/-! ## The fetch: properties -/

/-- C9 as stated fails: on a read that ends with an error and a body that
does not decode, `StocktwitsCallAPI` still returns a pair, the empty message
list and a profile with the counts 0, 0, 0; the two errors are printed and
written to the log and are not part of the result. -/
theorem StocktwitsCallAPI_pair_after_failed_fetch :
    returnURL httpUnexpectedEOF (stocktwitURL "AAPL") = some ([], some "unexpected EOF")
      ∧ (unmarshalFails [] emptyResponse).2 = some "unexpected end of JSON input"
      ∧ StocktwitsCallAPI "stocktwits.log" unmarshalFails httpUnexpectedEOF ⟨0⟩ "AAPL"
          = some (([], ⟨⟨0⟩, ⟨⟨0⟩, "", "", [], false, ⟨0⟩⟩, ⟨false, ⟨0⟩, ⟨0⟩⟩, ⟨0, 0, 0⟩⟩),
              [Event.println "unexpected EOF",
               Event.writeFile "stocktwits.log" "ERROR: Stocktwits Api error - unexpected EOF",
               Event.println "unexpected end of JSON input",
               Event.writeFile "stocktwits.log"
                 "ERROR: Json Unmarshal error - unexpected end of JSON input"]) := by
  refine ⟨rfl, rfl, ?_⟩
  decide

/-- C9, amended: whenever `returnURL` returns, with a read error or without,
`StocktwitsCallAPI` returns the pair built from the response as
`json.Unmarshal` left it: its messages, and the profile with the counts of
those messages. A read error and a decode error are each printed and written
to the log file, and without either nothing is printed or written. -/
theorem StocktwitsCallAPI_returns_pair_and_logs (logPath : String)
    (unmarshal : Bytes → StocktwitResponse → StocktwitResponse × Option String)
    (http : String → HTTPOutcome) (currentTime : Time) (symbol : String)
    (body : Bytes) (readErr : Option String)
    (h : http (stocktwitURL symbol) = HTTPOutcome.read body readErr) :
    ∃ events : List Event,
      StocktwitsCallAPI logPath unmarshal http currentTime symbol
          = some (((unmarshal body emptyResponse).1.Messages,
                    ⟨(unmarshal body emptyResponse).1.Response,
                     (unmarshal body emptyResponse).1.Symbol,
                     (unmarshal body emptyResponse).1.Cursor,
                     buildTemperature currentTime (unmarshal body emptyResponse).1.Messages⟩),
                  events)
        ∧ (∀ e : String, readErr = some e →
            Event.println e ∈ events
              ∧ Event.writeFile logPath ("ERROR: Stocktwits Api error - " ++ e) ∈ events)
        ∧ (∀ e : String, (unmarshal body emptyResponse).2 = some e →
            Event.println e ∈ events
              ∧ Event.writeFile logPath ("ERROR: Json Unmarshal error - " ++ e) ∈ events)
        ∧ (readErr = none → (unmarshal body emptyResponse).2 = none → events = []) := by
  refine ⟨reportError logPath "ERROR: Stocktwits Api error - " readErr
    ++ reportError logPath "ERROR: Json Unmarshal error - " (unmarshal body emptyResponse).2,
    ?_, ?_, ?_, ?_⟩
  · simp only [StocktwitsCallAPI, stocktwitsAPICall, returnURL, h]
  · intro e he
    subst he
    simp [reportError]
  · intro e he
    rw [he]
    simp [reportError]
  · intro h1 h2
    rw [h1, h2]
    rfl

/-- Instance of the amended C9: the read that ends early, with a decoder that
fails. -/
theorem StocktwitsCallAPI_returns_pair_and_logs_witness :
    httpUnexpectedEOF (stocktwitURL "AAPL") = HTTPOutcome.read [] (some "unexpected EOF")
      ∧ ∃ events : List Event,
          StocktwitsCallAPI "stocktwits.log" unmarshalFails httpUnexpectedEOF ⟨0⟩ "AAPL"
              = some (((unmarshalFails [] emptyResponse).1.Messages,
                        ⟨(unmarshalFails [] emptyResponse).1.Response,
                         (unmarshalFails [] emptyResponse).1.Symbol,
                         (unmarshalFails [] emptyResponse).1.Cursor,
                         buildTemperature ⟨0⟩ (unmarshalFails [] emptyResponse).1.Messages⟩),
                      events)
            ∧ (∀ e : String, some "unexpected EOF" = some e →
                Event.println e ∈ events
                  ∧ Event.writeFile "stocktwits.log" ("ERROR: Stocktwits Api error - " ++ e)
                      ∈ events)
            ∧ (∀ e : String, (unmarshalFails [] emptyResponse).2 = some e →
                Event.println e ∈ events
                  ∧ Event.writeFile "stocktwits.log" ("ERROR: Json Unmarshal error - " ++ e)
                      ∈ events)
            ∧ ((some "unexpected EOF" : Option String) = none →
                (unmarshalFails [] emptyResponse).2 = none → events = []) :=
  ⟨rfl,
    StocktwitsCallAPI_returns_pair_and_logs "stocktwits.log" unmarshalFails httpUnexpectedEOF
      ⟨0⟩ "AAPL" [] (some "unexpected EOF") rfl⟩

end Gogetstocktwits
